import Mathlib

/-!
Shallow embedding of the data-generation pipeline of
`capstone_project/preprocessing.py` and the configuration constants of
`main.py`, together with theorems settling the specification claims about
them.  Python integers are modelled by `Int` (or `Nat` where the source
value is a count), Python dicts by functions, the NumPy global random
generator by an explicit state machine, and the pickle cache on disk by a
partial map from path strings to stored objects.
-/

namespace Capstone

/-! ### Time buckets (`get_time_buckets_dict`, preprocessing.py lines 22-35) -/

/-- Inner loop of `get_time_buckets_dict`: `for time in bucket: buckets_dict[time] = bucket_idx`. -/
def insertBucket (bucket : List Nat) (bucket_idx : Nat) (d : Nat → Option Nat) : Nat → Option Nat :=
  bucket.foldl (fun acc time => fun k => if k = time then some bucket_idx else acc k) d

/-- Outer loop of `get_time_buckets_dict`: walks the bucket list with a running
0-indexed `bucket_idx`, starting from the empty dict. -/
def bucketsLoop : List (List Nat) → Nat → (Nat → Option Nat) → Nat → Option Nat
  | [], _, d => d
  | b :: bs, i, d => bucketsLoop bs (i + 1) (insertBucket b i d)

/-- `get_time_buckets_dict(time_buckets)`: dict from time difference to the
0-indexed class of the bucket containing it (later buckets overwrite earlier
entries, as repeated Python dict assignment does). -/
def get_time_buckets_dict (time_buckets : List (List Nat)) : Nat → Option Nat :=
  bucketsLoop time_buckets 0 (fun _ => none)

/-- `np.hstack([bucket for bucket in time_buckets]).max()` (preprocessing.py
line 85), for a nonempty flattened bucket list. -/
def maxFrameDiff (time_buckets : List (List Nat)) : Nat :=
  time_buckets.flatten.foldl max 0

/-- `TIME_BUCKETS` from main.py line 46:
`[[0], [1], [2], [3,4], list(range(5,11,1)), list(range(11,20,1))]`. -/
def TIME_BUCKETS : List (List Nat) :=
  [[0], [1], [2], [3, 4], [5, 6, 7, 8, 9, 10], [11, 12, 13, 14, 15, 16, 17, 18, 19]]

/-! ### Frame-difference candidates (`get_frame_differences_dict`, lines 37-54) -/

/-- Straight-line form of the `while end_frame <= num_total_frames-1` loop body:
runs exactly `cnt` iterations, emitting `(start_frame, end_frame)` and
incrementing both counters each time. -/
def framePairsGo : Nat → Int → Int → List (Int × Int)
  | 0, _, _ => []
  | cnt + 1, s, e => (s, e) :: framePairsGo cnt (s + 1) (e + 1)

/-- The while loop of `get_frame_differences_dict`, entered with counters
`s`, `e` and guard `e ≤ num_total_frames - 1`; it terminates after exactly
`(num_total_frames - e).toNat` iterations, so it is defined as that unrolling
(the guarded recurrence is recovered by `framePairsLoop_eq`). -/
def framePairsLoop (num_total_frames s e : Int) : List (Int × Int) :=
  framePairsGo (num_total_frames - e).toNat s e

theorem framePairsLoop_eq (n s e : Int) :
    framePairsLoop n s e =
      if e ≤ n - 1 then (s, e) :: framePairsLoop n (s + 1) (e + 1) else [] := by
  unfold framePairsLoop
  by_cases h : e ≤ n - 1
  · have hc : (n - e).toNat = (n - (e + 1)).toNat + 1 := by omega
    rw [hc, if_pos h]
    rfl
  · have hc : (n - e).toNat = 0 := by omega
    rw [hc, if_neg h]
    rfl

/-- `get_frame_differences_dict(num_total_frames, max_frame_diff,
num_frames_in_stack)` as a total function: for each `diff` in
`range(max_frame_diff+1)` the list of `(start_frame, end_frame)` pairs at that
difference, starting from `start_frame = num_frames_in_stack-1`; a `diff`
outside the iterated range (or one whose loop never fires) is an absent dict
key, modelled by the empty list. -/
def get_frame_differences_dict (num_total_frames : Int) (max_frame_diff : Nat)
    (num_frames_in_stack : Int) : Nat → List (Int × Int) :=
  fun diff =>
    if diff ≤ max_frame_diff then
      framePairsLoop num_total_frames (num_frames_in_stack - 1)
        (num_frames_in_stack - 1 + diff)
    else []

theorem framePairsGo_mem (cnt : Nat) :
    ∀ (s e : Int) (pr : Int × Int), pr ∈ framePairsGo cnt s e →
      s ≤ pr.1 ∧ pr.2 + s = pr.1 + e ∧ pr.2 ≤ e + cnt - 1 := by
  induction cnt with
  | zero => intro s e pr h; simp [framePairsGo] at h
  | succ n ih =>
    intro s e pr h
    rw [framePairsGo] at h
    rcases List.mem_cons.mp h with h | h
    · subst h; constructor <;> [skip; constructor] <;> simp <;> omega
    · have := ih (s + 1) (e + 1) pr h
      refine ⟨by omega, by omega, by omega⟩

/-- Candidate start/end frames for a given difference sit between the initial
start frame and the last valid frame index, with the end index fixed at
`start + diff`. -/
theorem framePairsLoop_mem (n s e : Int) (pr : Int × Int)
    (h : pr ∈ framePairsLoop n s e) :
    s ≤ pr.1 ∧ pr.2 + s = pr.1 + e ∧ pr.2 ≤ n - 1 := by
  have := framePairsGo_mem (n - e).toNat s e pr h
  refine ⟨this.1, this.2.1, by omega⟩

/-! ### Train/val/test split sizes (`generate_dataloader`, lines 146-151).
Python float fractions are modelled by rationals; the claim proved below
holds for arbitrary values of the two floored expressions, so it is
insensitive to the float-vs-rational rounding model. -/

/-- `num_test = int(np.floor(test_size*len(dataset)))`. -/
def num_test (n : Nat) (test_size : ℚ) : Int :=
  Int.floor (test_size * n)

/-- `num_train_val = len(dataset) - num_test`. -/
def num_train_val (n : Nat) (test_size : ℚ) : Int :=
  n - num_test n test_size

/-- `num_val = int(np.floor(num_train_val*val_size/(1 - test_size)))`. -/
def num_val (n : Nat) (test_size val_size : ℚ) : Int :=
  Int.floor ((num_train_val n test_size : ℚ) * val_size / (1 - test_size))

/-- `num_train = num_train_val - num_val`. -/
def num_train (n : Nat) (test_size val_size : ℚ) : Int :=
  num_train_val n test_size - num_val n test_size val_size

/-! ### Pair sampling (`get_samples_at_difference`, lines 56-76) -/

/-- The NumPy global random generator, abstracted: `seed` is `np.random.seed`,
`choice s n k` is `np.random.choice(n, size=k)` run in state `s`, returning the
drawn indices and the successor state.  The two laws are the NumPy contract:
exactly `size` draws, each in `[0, n)` (when `n` is positive). -/
structure RNG (S : Type) where
  seed : Nat → S
  choice : S → Nat → Nat → List Nat × S
  choice_length : ∀ s n k, (choice s n k).1.length = k
  choice_lt : ∀ s n k, 0 < n → ∀ i ∈ (choice s n k).1, i < n

/-- Python/NumPy indexing into a sequence: negative indices count from the
end, out-of-range access is an error (`none`). -/
def pyIndex (xs : List α) (i : Int) : Option α :=
  if 0 ≤ i then xs[i.toNat]?
  else if 0 ≤ i + xs.length then xs[(i + xs.length).toNat]?
  else none

/-- Python `range(a, b)` with step 1, over true integers. -/
def pyRange (a b : Int) : List Int :=
  (List.range (b - a).toNat).map (fun (k : Nat) => a + k)

/-- A generated sample: the two frame stacks `[row[target1_frames],
row[target2_frames]]`, each frame fetched by (possibly failing) indexing. -/
abbrev Sample (α : Type) := List (List (Option α))

/-- `row[target_frames]` for `target_frames =
list(range(last-num_frames_in_stack+1, last+1))`. -/
def stackEndingAt (row : List α) (num_frames_in_stack : Nat) (last : Int) :
    List (Option α) :=
  (pyRange (last - num_frames_in_stack + 1) (last + 1)).map (pyIndex row)

/-- Body of the innermost loop of `get_samples_at_difference`: build the
two-stack sample for the selected candidate pair. -/
def mkSample (num_frames_in_stack : Nat) (row : List α) (pr : Int × Int) :
    Sample α :=
  [stackEndingAt row num_frames_in_stack pr.1,
   stackEndingAt row num_frames_in_stack pr.2]

/-- The index pairs drawn by `get_samples_at_difference`: it reseeds the
global generator with the constant 1337 and then draws
`num_pairs_per_example` candidate positions. -/
def sampledIdx (rng : RNG S) (n num_pairs_per_example : Nat) : List Nat :=
  (rng.choice (rng.seed 1337) n num_pairs_per_example).1

/-- `get_samples_at_difference(data, difference, differences_dict,
num_pairs_per_example, num_frames_in_stack, time_buckets_dict)`, with the
incoming global RNG state `s0` made explicit (the call overwrites it via
`np.random.seed(1337)` before drawing).  Returns `((video_pairs, y), s')`:
the sample list, the bucket labels, and the outgoing RNG state.  A sample is
`none` when the drawn candidate position is out of range, and a label is
`none` when the difference is missing from `time_buckets_dict` (both are
uncaught Python errors). -/
def get_samples_at_difference (rng : RNG S) (s0 : S) (data : List (List α))
    (difference : Nat) (differences_dict : Nat → List (Int × Int))
    (num_pairs_per_example num_frames_in_stack : Nat)
    (time_buckets_dict : Nat → Option Nat) :
    (List (Option (Sample α)) × List (Option Nat)) × S :=
  let candidates := differences_dict difference
  let s1 := rng.seed 1337
  let drawn := rng.choice s1 candidates.length num_pairs_per_example
  let idx_pairs := drawn.1
  let video_pairs := data.flatMap (fun row =>
    idx_pairs.map (fun idx =>
      (candidates[idx]?).map (mkSample num_frames_in_stack row)))
  let y := data.flatMap (fun _ =>
    idx_pairs.map (fun _ => time_buckets_dict difference))
  ((video_pairs, y), drawn.2)

/-- Spec-side description of a stored frame stack: the contiguous run of
exactly `num_frames_in_stack` frame indices ending at `last`, fetched from the
row. -/
def contiguousStackSpec (row : List α) (num_frames_in_stack : Nat) (last : Int) :
    List (Option α) :=
  (List.range num_frames_in_stack).map
    (fun (j : Nat) => pyIndex row (last - num_frames_in_stack + 1 + j))

theorem stackEndingAt_eq_spec (row : List α) (stack : Nat) (last : Int) :
    stackEndingAt row stack last = contiguousStackSpec row stack last := by
  unfold stackEndingAt contiguousStackSpec pyRange
  have h : (last + 1 - (last - (stack : Int) + 1)).toNat = stack := by omega
  rw [h, List.map_map]
  rfl

/-! ### Paired-data generation and caching (`get_paired_data`, lines 78-114) -/

/-- A pickled object on disk: either a pair array or a label array (pickle
round-trips arbitrary objects; these are the two this code ever stores). -/
inductive PyObj (α : Type) where
  | arrX : List (Option (Sample α)) → PyObj α
  | arrY : List (Option Nat) → PyObj α

/-- The on-disk pickle cache: a partial map from path strings to stored
objects.  `os.path.exists(p)` is `(store p).isSome`. -/
abbrev Store (α : Type) := String → Option (PyObj α)

/-- Modelled from the spec: `save_object` (in `capstone_project/utils.py`,
which is not under src/) pickles an object to the given path; per the spec's
caching policy it persists the object on disk so a later load at the same path
returns it. -/
def save_object (store : Store α) (obj : PyObj α) (path : String) : Store α :=
  fun p => if p = path then some obj else store p

/-- Modelled from the spec: `load_object` (in `capstone_project/utils.py`, not
under src/) unpickles and returns whatever object was stored at the path. -/
def load_object (store : Store α) (path : String) : Option (PyObj α) :=
  store path

/-- `os.path.join(a, b, c)` for the relative, slash-free components this code
passes. -/
def pathJoin3 (a b c : String) : String :=
  a ++ "/" ++ b ++ "/" ++ c

/-- `'.'.join(filename.split('.')[:-1])`: the dataset filename with its
extension stripped. -/
def cacheBaseName (filename : String) : String :=
  String.intercalate "." ((filename.splitOn ".").dropLast)

/-- `X_path = os.path.join(project_dir, data_dir, '{}_X.pkl'.format(filename))`. -/
def cacheXPath (project_dir data_dir filename : String) : String :=
  pathJoin3 project_dir data_dir (cacheBaseName filename ++ "_X.pkl")

/-- `y_path = os.path.join(project_dir, data_dir, '{}_y.pkl'.format(filename))`. -/
def cacheYPath (project_dir data_dir filename : String) : String :=
  pathJoin3 project_dir data_dir (cacheBaseName filename ++ "_y.pkl")

/-- `data.shape[1]` of the loaded video array, for data modelled as a list of
per-video frame lists. -/
def shape1 (data : List (List α)) : Nat :=
  (data.headD []).length

/-- The message of the `assert` at preprocessing.py lines 85-87. -/
def assertMsg (max_frame_diff num_total_frames num_frames_in_stack : Nat) : String :=
  "Cannot have difference of " ++ toString max_frame_diff ++
    " when sequence length is " ++ toString num_total_frames ++
    " and number of stacked frames are " ++ toString num_frames_in_stack

/-- The inner `for difference in range(max_frame_diff+1)` loop of
`get_paired_data`, over an explicit list of differences: accumulates
`np.vstack`ed sample arrays and `np.append`ed labels, threading the global
RNG state. -/
def runDiffs (rng : RNG S) (data : List (List α))
    (differences_dict : Nat → List (Int × Int))
    (num_pairs_per_example num_frames_in_stack : Nat)
    (time_buckets_dict : Nat → Option Nat) :
    List Nat → S → List (Option (Sample α)) × List (Option Nat) × S
  | [], s => ([], [], s)
  | d :: ds, s =>
    let r := get_samples_at_difference rng s data d differences_dict
      num_pairs_per_example num_frames_in_stack time_buckets_dict
    let rest := runDiffs rng data differences_dict num_pairs_per_example
      num_frames_in_stack time_buckets_dict ds r.2
    (r.1.1 ++ rest.1, r.1.2 ++ rest.2.1, rest.2.2)

/-- The outer `for i in range(num_passes_for_generation)` loop of
`get_paired_data`: each pass runs the full inner difference loop. -/
def runPasses (rng : RNG S) (data : List (List α))
    (differences_dict : Nat → List (Int × Int))
    (num_pairs_per_example num_frames_in_stack max_frame_diff : Nat)
    (time_buckets_dict : Nat → Option Nat) :
    Nat → S → List (Option (Sample α)) × List (Option Nat) × S
  | 0, s => ([], [], s)
  | p + 1, s =>
    let r := runDiffs rng data differences_dict num_pairs_per_example
      num_frames_in_stack time_buckets_dict (List.range (max_frame_diff + 1)) s
    let rest := runPasses rng data differences_dict num_pairs_per_example
      num_frames_in_stack max_frame_diff time_buckets_dict p r.2.2
    (r.1 ++ rest.1, r.2.1 ++ rest.2.1, rest.2.2)

/-- `get_paired_data(project_dir, data_dir, plots_dir, filename, time_buckets,
num_passes_for_generation, num_pairs_per_example, num_frames_in_stack, force)`.
`data` is the array `load_data` returns for `filename` (file reading and the
`imshow` plot are I/O outside the model), `store` is the pickle cache and `s0`
the incoming global RNG state.  Returns the `(X, y)` result together with the
cache left on disk, or the assertion error. -/
def get_paired_data (rng : RNG S) (s0 : S) (store : Store α)
    (project_dir data_dir plots_dir filename : String) (data : List (List α))
    (time_buckets : List (List Nat))
    (num_passes_for_generation num_pairs_per_example num_frames_in_stack : Nat)
    (force : Bool) : Except String (PyObj α × PyObj α × Store α) :=
  let num_total_frames := shape1 data
  let max_frame_diff := maxFrameDiff time_buckets
  if (max_frame_diff : Int) ≤ (num_total_frames : Int) - (num_frames_in_stack : Int) then
    let X_path := cacheXPath project_dir data_dir filename
    let y_path := cacheYPath project_dir data_dir filename
    match force, load_object store X_path, load_object store y_path with
    | false, some oX, some oy => Except.ok (oX, oy, store)
    | _, _, _ =>
      let time_buckets_dict := get_time_buckets_dict time_buckets
      let differences_dict := get_frame_differences_dict num_total_frames
        max_frame_diff num_frames_in_stack
      let r := runPasses rng data differences_dict num_pairs_per_example
        num_frames_in_stack max_frame_diff time_buckets_dict
        num_passes_for_generation s0
      let store1 := save_object store (PyObj.arrX r.1) X_path
      let store2 := save_object store1 (PyObj.arrY r.2.1) y_path
      Except.ok (PyObj.arrX r.1, PyObj.arrY r.2.1, store2)
  else
    Except.error (assertMsg max_frame_diff num_total_frames num_frames_in_stack)

/-- The `(X, y, final RNG state)` produced by the generation branch of
`get_paired_data` (the code from line 99 on). -/
def genTriple (rng : RNG S) (s0 : S) (data : List (List α))
    (time_buckets : List (List Nat))
    (num_passes_for_generation num_pairs_per_example num_frames_in_stack : Nat) :
    List (Option (Sample α)) × List (Option Nat) × S :=
  runPasses rng data
    (get_frame_differences_dict (shape1 data) (maxFrameDiff time_buckets)
      num_frames_in_stack)
    num_pairs_per_example num_frames_in_stack (maxFrameDiff time_buckets)
    (get_time_buckets_dict time_buckets) num_passes_for_generation s0

theorem cacheXPath_ne_cacheYPath (project_dir data_dir filename : String) :
    cacheXPath project_dir data_dir filename ≠ cacheYPath project_dir data_dir filename := by
  unfold cacheXPath cacheYPath pathJoin3
  intro h
  have h2 := congrArg String.data h
  simp [String.data_append, List.append_assoc] at h2

theorem get_paired_data_error (rng : RNG S) (s0 : S) (store : Store α)
    (pd dd pl fn : String) (data : List (List α)) (tb : List (List Nat))
    (P k stack : Nat) (force : Bool)
    (h : ¬ ((maxFrameDiff tb : Int) ≤ (shape1 data : Int) - (stack : Int))) :
    get_paired_data rng s0 store pd dd pl fn data tb P k stack force =
      Except.error (assertMsg (maxFrameDiff tb) (shape1 data) stack) := by
  simp only [get_paired_data]
  rw [if_neg h]

theorem get_paired_data_ok (rng : RNG S) (s0 : S) (store : Store α)
    (pd dd pl fn : String) (data : List (List α)) (tb : List (List Nat))
    (P k stack : Nat) (force : Bool)
    (h : (maxFrameDiff tb : Int) ≤ (shape1 data : Int) - (stack : Int)) :
    ∃ v, get_paired_data rng s0 store pd dd pl fn data tb P k stack force =
      Except.ok v := by
  simp only [get_paired_data]
  rw [if_pos h]
  split
  · exact ⟨_, rfl⟩
  · exact ⟨_, rfl⟩

/-! ### Shape facts about the generation loop -/

theorem flatMap_const_length (l : List β) (f : β → List γ) (m : Nat)
    (h : ∀ b ∈ l, (f b).length = m) : (l.flatMap f).length = l.length * m := by
  induction l with
  | nil => simp
  | cons a t ih =>
    simp only [List.flatMap_cons, List.length_append, List.length_cons]
    rw [h a (List.mem_cons_self a t), ih (fun b hb => h b (List.mem_cons_of_mem a hb))]
    ring

theorem get_samples_lengths (rng : RNG S) (s0 : S) (data : List (List α))
    (d : Nat) (dd : Nat → List (Int × Int)) (k stack : Nat)
    (tbd : Nat → Option Nat) :
    ((get_samples_at_difference rng s0 data d dd k stack tbd).1.1).length =
        data.length * k ∧
      ((get_samples_at_difference rng s0 data d dd k stack tbd).1.2).length =
        data.length * k := by
  unfold get_samples_at_difference
  constructor <;>
  · apply flatMap_const_length
    intro b _
    simp [rng.choice_length]

theorem runDiffs_lengths (rng : RNG S) (data : List (List α))
    (dd : Nat → List (Int × Int)) (k stack : Nat) (tbd : Nat → Option Nat) :
    ∀ (ds : List Nat) (s : S),
      ((runDiffs rng data dd k stack tbd ds s).1).length =
          ds.length * (data.length * k) ∧
        ((runDiffs rng data dd k stack tbd ds s).2.1).length =
          ds.length * (data.length * k) := by
  intro ds
  induction ds with
  | nil => intro s; simp [runDiffs]
  | cons d t ih =>
    intro s
    simp only [runDiffs, List.length_append, List.length_cons]
    have h1 := get_samples_lengths rng s data d dd k stack tbd
    have h2 := ih (get_samples_at_difference rng s data d dd k stack tbd).2
    rw [h1.1, h1.2, h2.1, h2.2]
    constructor <;> ring

theorem runPasses_lengths (rng : RNG S) (data : List (List α))
    (dd : Nat → List (Int × Int)) (k stack maxd : Nat) (tbd : Nat → Option Nat) :
    ∀ (P : Nat) (s : S),
      ((runPasses rng data dd k stack maxd tbd P s).1).length =
          P * ((maxd + 1) * (data.length * k)) ∧
        ((runPasses rng data dd k stack maxd tbd P s).2.1).length =
          P * ((maxd + 1) * (data.length * k)) := by
  intro P
  induction P with
  | zero => intro s; simp [runPasses]
  | succ p ih =>
    intro s
    simp only [runPasses, List.length_append]
    have h1 := runDiffs_lengths rng data dd k stack tbd (List.range (maxd + 1)) s
    rw [h1.1, h1.2, List.length_range]
    have h2 := ih (runDiffs rng data dd k stack tbd (List.range (maxd + 1)) s).2.2
    rw [h2.1, h2.2]
    constructor <;> ring

/-! ### Per-sample facts about the generation loop -/

theorem get_samples_mem (rng : RNG S) (s0 : S) (data : List (List α))
    (d : Nat) (dd : Nat → List (Int × Int)) (k stack : Nat)
    (tbd : Nat → Option Nat) (o : Option (Sample α))
    (ho : o ∈ (get_samples_at_difference rng s0 data d dd k stack tbd).1.1) :
    ∃ row ∈ data, ∃ idx ∈ sampledIdx rng (dd d).length k,
      o = ((dd d)[idx]?).map (mkSample stack row) := by
  unfold get_samples_at_difference at ho
  simp only [List.mem_flatMap, List.mem_map] at ho
  obtain ⟨row, hrow, idx, hidx, ho⟩ := ho
  exact ⟨row, hrow, idx, hidx, ho.symm⟩

theorem runDiffs_mem (rng : RNG S) (data : List (List α))
    (dd : Nat → List (Int × Int)) (k stack : Nat) (tbd : Nat → Option Nat) :
    ∀ (ds : List Nat) (s : S) (o : Option (Sample α)),
      o ∈ (runDiffs rng data dd k stack tbd ds s).1 →
      ∃ d ∈ ds, ∃ s', o ∈ (get_samples_at_difference rng s' data d dd k stack tbd).1.1 := by
  intro ds
  induction ds with
  | nil => intro s o ho; simp [runDiffs] at ho
  | cons d t ih =>
    intro s o ho
    simp only [runDiffs, List.mem_append] at ho
    rcases ho with ho | ho
    · exact ⟨d, List.mem_cons_self d t, s, ho⟩
    · obtain ⟨d', hd', s', hs'⟩ :=
        ih (get_samples_at_difference rng s data d dd k stack tbd).2 o ho
      exact ⟨d', List.mem_cons_of_mem d hd', s', hs'⟩

theorem runPasses_mem (rng : RNG S) (data : List (List α))
    (dd : Nat → List (Int × Int)) (k stack maxd : Nat) (tbd : Nat → Option Nat) :
    ∀ (P : Nat) (s : S) (o : Option (Sample α)),
      o ∈ (runPasses rng data dd k stack maxd tbd P s).1 →
      ∃ d ≤ maxd, ∃ s', o ∈ (get_samples_at_difference rng s' data d dd k stack tbd).1.1 := by
  intro P
  induction P with
  | zero => intro s o ho; simp [runPasses] at ho
  | succ p ih =>
    intro s o ho
    simp only [runPasses, List.mem_append] at ho
    rcases ho with ho | ho
    · obtain ⟨d, hd, s', hs'⟩ := runDiffs_mem rng data dd k stack tbd _ s o ho
      have hdlt := List.mem_range.mp hd
      exact ⟨d, by omega, s', hs'⟩
    · exact ih _ o ho

theorem pyIndex_mem (xs : List α) (i : Int) (h0 : 0 ≤ i) (hlt : i < xs.length) :
    ∃ a, pyIndex xs i = some a ∧ a ∈ xs := by
  unfold pyIndex
  rw [if_pos h0]
  have h : i.toNat < xs.length := by omega
  exact ⟨xs[i.toNat], by simp [List.getElem?_eq_getElem h], List.getElem_mem h⟩

theorem stackEndingAt_length (row : List α) (stack : Nat) (last : Int) :
    (stackEndingAt row stack last).length = stack := by
  unfold stackEndingAt pyRange
  rw [List.length_map, List.length_map, List.length_range]
  omega

theorem stackEndingAt_frames (row : List α) (stack : Nat) (last : Int)
    (hstack : 1 ≤ stack) (hlo : (stack : Int) - 1 ≤ last)
    (hhi : last < row.length) :
    ∀ o ∈ stackEndingAt row stack last, ∃ a, o = some a ∧ a ∈ row := by
  intro o ho
  unfold stackEndingAt pyRange at ho
  simp only [List.map_map, List.mem_map, List.mem_range] at ho
  obtain ⟨j, hj, ho⟩ := ho
  obtain ⟨a, ha, hmem⟩ := pyIndex_mem row (last - (stack : Int) + 1 + j)
    (by omega) (by omega)
  refine ⟨a, ?_, hmem⟩
  rw [← ho]
  simpa [Function.comp] using ha

/-- The candidate list at difference `d` is nonempty whenever the assertion
of `get_paired_data` admits `d`. -/
theorem candidates_nonempty (num_total_frames : Int) (maxd : Nat) (stack : Int)
    (d : Nat) (hd : d ≤ maxd)
    (hfit : stack + d ≤ num_total_frames) :
    (get_frame_differences_dict num_total_frames maxd stack d).length > 0 := by
  unfold get_frame_differences_dict
  rw [if_pos hd, framePairsLoop_eq, if_pos (by omega)]
  simp

/-! ### Claim theorems C3, C4, C6 -/

/-- C3: for the `TIME_BUCKETS` configured in main.py, the dict built by
`get_time_buckets_dict` is defined on every integer difference in
`[0, max_frame_diff]` and maps it to the unique 0-indexed bucket containing
it, i.e. the buckets partition the range of differences. -/
theorem c3_buckets_partition :
    ∀ d : Nat, d ≤ maxFrameDiff TIME_BUCKETS →
      ∃ i < TIME_BUCKETS.length,
        get_time_buckets_dict TIME_BUCKETS d = some i ∧
        d ∈ TIME_BUCKETS.getD i [] ∧
        ∀ j < TIME_BUCKETS.length, d ∈ TIME_BUCKETS.getD j [] → j = i := by
  decide

theorem c3_buckets_partition_witness :
    (7 : Nat) ≤ maxFrameDiff TIME_BUCKETS ∧
      ∃ i < TIME_BUCKETS.length,
        get_time_buckets_dict TIME_BUCKETS 7 = some i ∧
        7 ∈ TIME_BUCKETS.getD i [] ∧
        ∀ j < TIME_BUCKETS.length, 7 ∈ TIME_BUCKETS.getD j [] → j = i :=
  ⟨by decide, c3_buckets_partition 7 (by decide)⟩

/-- C4: every pair in every list of the dictionary returned by
`get_frame_differences_dict` has a non-negative start frame and an end frame
at most `num_total_frames - 1`. -/
theorem c4_pairs_in_range (num_total_frames num_frames_in_stack : Int)
    (max_frame_diff diff : Nat) (pr : Int × Int)
    (h1 : 1 ≤ num_total_frames) (h2 : 1 ≤ num_frames_in_stack)
    (hmem : pr ∈ get_frame_differences_dict num_total_frames max_frame_diff
      num_frames_in_stack diff) :
    0 ≤ pr.1 ∧ pr.2 ≤ num_total_frames - 1 := by
  unfold get_frame_differences_dict at hmem
  by_cases hd : diff ≤ max_frame_diff
  · rw [if_pos hd] at hmem
    have := framePairsLoop_mem _ _ _ _ hmem
    exact ⟨by omega, this.2.2⟩
  · rw [if_neg hd] at hmem
    simp at hmem

theorem c4_pairs_in_range_witness :
    (1 : Int) ≤ 3 ∧ (1 : Int) ≤ 1 ∧
      ((0 : Int), (1 : Int)) ∈ get_frame_differences_dict 3 1 1 1 ∧
      (0 ≤ ((0 : Int), (1 : Int)).1 ∧ ((0 : Int), (1 : Int)).2 ≤ 3 - 1) :=
  ⟨by decide, by decide, by decide,
    c4_pairs_in_range 3 1 1 1 ((0 : Int), (1 : Int)) (by decide) (by decide) (by decide)⟩

/-- C6: the three split sizes computed by `generate_dataloader` always sum to
the dataset size exactly, for any fractions making the computed counts
non-negative. -/
theorem c6_split_sum (n : Nat) (test_size val_size : ℚ)
    (h1 : 0 ≤ num_test n test_size)
    (h2 : 0 ≤ num_val n test_size val_size)
    (h3 : 0 ≤ num_train n test_size val_size) :
    num_train n test_size val_size + num_val n test_size val_size +
      num_test n test_size = n := by
  unfold num_train num_train_val
  ring

/-- A concrete RNG implementation used to instantiate universally quantified
theorems: it always draws index 0. -/
def exRNG : RNG Unit where
  seed _ := ()
  choice _ _ k := ((List.range k).map (fun _ => 0), ())
  choice_length := by intro s n k; simp
  choice_lt := by
    intro s n k hn i hi
    simp only [List.mem_map, List.mem_range] at hi
    obtain ⟨a, _, ha⟩ := hi
    omega

/-- An example time-buckets dict for witnesses. -/
def exTBD : Nat → Option Nat := fun d => if d ≤ 1 then some d else none

/-- C5: every sample emitted by `get_samples_at_difference` at difference `d`
consists of the two contiguous stacks of exactly `num_frames_in_stack` frame
indices ending at the two components of the selected candidate pair, and every
recorded label is `time_buckets_dict[d]`. -/
theorem c5_sample_structure (rng : RNG S) (s0 : S) (data : List (List α))
    (d : Nat) (dd : Nat → List (Int × Int)) (k stack : Nat)
    (tbd : Nat → Option Nat) :
    ((get_samples_at_difference rng s0 data d dd k stack tbd).1.1 =
      data.flatMap (fun row =>
        (sampledIdx rng (dd d).length k).map (fun idx =>
          ((dd d)[idx]?).map (fun pr =>
            [contiguousStackSpec row stack pr.1,
             contiguousStackSpec row stack pr.2])))) ∧
    ∀ l ∈ (get_samples_at_difference rng s0 data d dd k stack tbd).1.2,
      l = tbd d := by
  constructor
  · have hms : ∀ row : List α, mkSample stack row =
        fun pr : Int × Int =>
          [contiguousStackSpec row stack pr.1, contiguousStackSpec row stack pr.2] :=
      fun row => funext fun pr => by
        simp [mkSample, stackEndingAt_eq_spec]
    unfold get_samples_at_difference sampledIdx
    simp only [hms]
  · intro l hl
    unfold get_samples_at_difference at hl
    simp only [List.mem_flatMap, List.mem_map] at hl
    obtain ⟨row, _, i, _, hi⟩ := hl
    exact hi.symm

theorem c5_sample_structure_witness :
    ((get_samples_at_difference exRNG () [[0, 1, 2]] 1
        (get_frame_differences_dict 3 1 1) 1 1 exTBD).1.1 =
      ([[0, 1, 2]] : List (List Nat)).flatMap (fun row =>
        (sampledIdx exRNG ((get_frame_differences_dict 3 1 1) 1).length 1).map
          (fun idx =>
            (((get_frame_differences_dict 3 1 1) 1)[idx]?).map (fun pr =>
              [contiguousStackSpec row 1 pr.1,
               contiguousStackSpec row 1 pr.2])))) ∧
    ∀ l ∈ (get_samples_at_difference exRNG () [[0, 1, 2]] 1
        (get_frame_differences_dict 3 1 1) 1 1 exTBD).1.2,
      l = exTBD 1 :=
  c5_sample_structure exRNG () [[0, 1, 2]] 1 (get_frame_differences_dict 3 1 1)
    1 1 exTBD

/-- C8: `get_samples_at_difference` is deterministic.  The reseed with the
constant 1337 discards the incoming generator state, so the returned
`(video_pairs, y)` are identical across any two states, and any two calls
whose candidate lists have equal length and which request the same number of
pairs draw the identical sequence of candidate positions, even at different
time differences. -/
theorem c8_deterministic (rng : RNG S) (s0 s0' : S) (data : List (List α))
    (d d' : Nat) (dd dd' : Nat → List (Int × Int)) (k stack : Nat)
    (tbd : Nat → Option Nat)
    (hlen : (dd d).length = (dd' d').length) :
    ((get_samples_at_difference rng s0 data d dd k stack tbd).1 =
      (get_samples_at_difference rng s0' data d dd k stack tbd).1) ∧
    sampledIdx rng (dd d).length k = sampledIdx rng (dd' d').length k :=
  ⟨rfl, by rw [hlen]⟩

theorem c8_deterministic_witness :
    ((get_frame_differences_dict 3 1 1) 0).length =
      ((get_frame_differences_dict 4 2 2) 0).length ∧
    (((get_samples_at_difference exRNG () [[0, 1, 2]] 0
        (get_frame_differences_dict 3 1 1) 1 1 exTBD).1 =
      (get_samples_at_difference exRNG () [[0, 1, 2]] 0
        (get_frame_differences_dict 3 1 1) 1 1 exTBD).1) ∧
    sampledIdx exRNG ((get_frame_differences_dict 3 1 1) 0).length 1 =
      sampledIdx exRNG ((get_frame_differences_dict 4 2 2) 0).length 1) :=
  ⟨by decide,
    c8_deterministic exRNG () () [[0, 1, 2]] 0 0 (get_frame_differences_dict 3 1 1)
      (get_frame_differences_dict 4 2 2) 1 1 exTBD (by decide)⟩

theorem c6_split_sum_witness :
    0 ≤ num_test 10 (1/5) ∧ 0 ≤ num_val 10 (1/5) (1/5) ∧
      0 ≤ num_train 10 (1/5) (1/5) ∧
      num_train 10 (1/5) (1/5) + num_val 10 (1/5) (1/5) + num_test 10 (1/5) = 10 := by
  have h1 : (0 : Int) ≤ num_test 10 (1/5) := by
    unfold num_test; norm_num
  have h2 : (0 : Int) ≤ num_val 10 (1/5) (1/5) := by
    unfold num_val num_train_val num_test; norm_num
  have h3 : (0 : Int) ≤ num_train 10 (1/5) (1/5) := by
    unfold num_train num_val num_train_val num_test; norm_num
  exact ⟨h1, h2, h3, c6_split_sum 10 (1/5) (1/5) h1 h2 h3⟩

/-- C2: `get_paired_data` fails on its assertion if and only if the maximum
configured time difference exceeds `num_total_frames - num_frames_in_stack`
(as Python integers); whenever the inequality holds the call does not fail on
this check. -/
theorem c2_assert_iff (rng : RNG S) (s0 : S) (store : Store α)
    (pd dd pl fn : String) (data : List (List α)) (tb : List (List Nat))
    (P k stack : Nat) (force : Bool)
    (hne : tb.flatten ≠ []) :
    (∃ e, get_paired_data rng s0 store pd dd pl fn data tb P k stack force =
        Except.error e) ↔
      (shape1 data : Int) - (stack : Int) < (maxFrameDiff tb : Int) := by
  constructor
  · rintro ⟨e, he⟩
    by_contra hnot
    push_neg at hnot
    obtain ⟨v, hv⟩ := get_paired_data_ok rng s0 store pd dd pl fn data tb
      P k stack force (by omega)
    rw [hv] at he
    exact Except.noConfusion he
  · intro hlt
    exact ⟨_, get_paired_data_error rng s0 store pd dd pl fn data tb
      P k stack force (by omega)⟩

theorem c2_assert_iff_witness :
    (([[0], [1]] : List (List Nat)).flatten ≠ [] ∧
      ((∃ e, get_paired_data exRNG () (fun _ => none) "p" "d" "pl" "f.npy"
          ([[0]] : List (List Nat)) [[0], [1]] 1 1 2 false =
          Except.error e) ↔
        (shape1 ([[0]] : List (List Nat)) : Int) - (2 : Nat) <
          (maxFrameDiff [[0], [1]] : Int))) :=
  ⟨by decide,
    c2_assert_iff exRNG () (fun _ => none) "p" "d" "pl" "f.npy" [[0]] [[0], [1]]
      1 1 2 false (by decide)⟩

/-- C10: the assertion is evaluated before the cache-existence check, so an
invalid configuration raises for every cache state and every value of
`force`; a cached result is never returned when the precondition fails. -/
theorem c10_assert_before_cache (rng : RNG S) (s0 : S)
    (pd dd pl fn : String) (data : List (List α)) (tb : List (List Nat))
    (P k stack : Nat)
    (hbad : (shape1 data : Int) - (stack : Int) < (maxFrameDiff tb : Int)) :
    ∀ (store : Store α) (force : Bool),
      get_paired_data rng s0 store pd dd pl fn data tb P k stack force =
        Except.error (assertMsg (maxFrameDiff tb) (shape1 data) stack) :=
  fun store force =>
    get_paired_data_error rng s0 store pd dd pl fn data tb P k stack force
      (by omega)

theorem c10_assert_before_cache_witness :
    ((shape1 ([[0]] : List (List Nat)) : Int) - (2 : Nat) <
        (maxFrameDiff [[0], [1]] : Int)) ∧
      get_paired_data exRNG () (fun _ => some (PyObj.arrX []))
          "p" "d" "pl" "f.npy" ([[0]] : List (List Nat)) [[0], [1]] 1 1 2 false =
        Except.error (assertMsg (maxFrameDiff [[0], [1]])
          (shape1 ([[0]] : List (List Nat))) 2) :=
  ⟨by decide,
    c10_assert_before_cache exRNG () "p" "d" "pl" "f.npy" [[0]] [[0], [1]]
      1 1 2 (by decide) (fun _ => some (PyObj.arrX [])) false⟩

/-- C7: when both cache files exist and `force` is false, `get_paired_data`
returns the two objects loaded from the cache with the store untouched; the
cache paths are computed from the directories and filename alone, so two calls
differing in every generation parameter (`num_passes_for_generation`,
`num_pairs_per_example`, `num_frames_in_stack`, `time_buckets`, and even the
RNG) read the same cache entries and return the same result. -/
theorem c7_cache_hit (rng : RNG S) (rng' : RNG S') (s0 : S) (s0' : S')
    (store : Store α) (pd dd pl pl' fn : String) (data : List (List α))
    (tb tb' : List (List Nat)) (P P' k k' stack stack' : Nat)
    (oX oy : PyObj α)
    (ha : (maxFrameDiff tb : Int) ≤ (shape1 data : Int) - (stack : Int))
    (ha' : (maxFrameDiff tb' : Int) ≤ (shape1 data : Int) - (stack' : Int))
    (hx : store (cacheXPath pd dd fn) = some oX)
    (hy : store (cacheYPath pd dd fn) = some oy) :
    get_paired_data rng s0 store pd dd pl fn data tb P k stack false =
      Except.ok (oX, oy, store) ∧
    get_paired_data rng' s0' store pd dd pl' fn data tb' P' k' stack' false =
      Except.ok (oX, oy, store) := by
  constructor
  · simp only [get_paired_data]
    rw [if_pos ha]
    simp [load_object, hx, hy]
  · simp only [get_paired_data]
    rw [if_pos ha']
    simp [load_object, hx, hy]

theorem c7_cache_hit_witness :
    ((maxFrameDiff [[0], [1]] : Int) ≤ (shape1 ([[0, 1, 2]] : List (List Nat)) : Int) - (1 : Nat)) ∧
    ((maxFrameDiff [[0]] : Int) ≤ (shape1 ([[0, 1, 2]] : List (List Nat)) : Int) - (2 : Nat)) ∧
    ((fun _ => some (PyObj.arrX ([] : List (Option (Sample Nat))))) (cacheXPath "p" "d" "f.npy") =
      some (PyObj.arrX ([] : List (Option (Sample Nat))))) ∧
    (get_paired_data exRNG () (fun _ => some (PyObj.arrX [])) "p" "d" "pl" "f.npy"
        ([[0, 1, 2]] : List (List Nat)) [[0], [1]] 2 3 1 false =
      Except.ok (PyObj.arrX [], PyObj.arrX [], fun _ => some (PyObj.arrX [])) ∧
    get_paired_data exRNG () (fun _ => some (PyObj.arrX [])) "p" "d" "pl2" "f.npy"
        ([[0, 1, 2]] : List (List Nat)) [[0]] 5 7 2 false =
      Except.ok (PyObj.arrX [], PyObj.arrX [], fun _ => some (PyObj.arrX []))) :=
  ⟨by decide, by decide, rfl,
    c7_cache_hit exRNG exRNG () () (fun _ => some (PyObj.arrX [])) "p" "d" "pl" "pl2"
      "f.npy" [[0, 1, 2]] [[0], [1]] [[0]] 2 5 3 7 1 2
      (PyObj.arrX []) (PyObj.arrX []) (by decide) (by decide) rfl rfl⟩

/-- C9: cache round-trip.  A call that generates (no cached pair file) saves
the generated arrays at the two cache paths, and a subsequent call with the
cache present and `force` false loads and returns objects identical to the
generated ones. -/
theorem c9_cache_roundtrip (rng : RNG S) (s0 : S) (store : Store α)
    (pd dd pl fn : String) (data : List (List α)) (tb : List (List Nat))
    (P k stack : Nat) (force : Bool)
    (ha : (maxFrameDiff tb : Int) ≤ (shape1 data : Int) - (stack : Int))
    (hmiss : store (cacheXPath pd dd fn) = none) :
    ∃ X y st,
      get_paired_data rng s0 store pd dd pl fn data tb P k stack force =
        Except.ok (PyObj.arrX X, PyObj.arrY y, st) ∧
      load_object st (cacheXPath pd dd fn) = some (PyObj.arrX X) ∧
      load_object st (cacheYPath pd dd fn) = some (PyObj.arrY y) ∧
      get_paired_data rng s0 st pd dd pl fn data tb P k stack false =
        Except.ok (PyObj.arrX X, PyObj.arrY y, st) := by
  have hne := cacheXPath_ne_cacheYPath pd dd fn
  refine ⟨(genTriple rng s0 data tb P k stack).1,
    (genTriple rng s0 data tb P k stack).2.1,
    save_object
      (save_object store (PyObj.arrX (genTriple rng s0 data tb P k stack).1)
        (cacheXPath pd dd fn))
      (PyObj.arrY (genTriple rng s0 data tb P k stack).2.1)
      (cacheYPath pd dd fn),
    ?_, ?_, ?_, ?_⟩
  · cases force with
    | true =>
      simp only [get_paired_data, genTriple]
      rw [if_pos ha]
    | false =>
      simp only [get_paired_data, genTriple]
      rw [if_pos ha]
      simp only [load_object, hmiss]
  · simp [load_object, save_object, hne]
  · simp [load_object, save_object]
  · simp only [get_paired_data]
    rw [if_pos ha]
    simp [load_object, save_object, hne, genTriple]

theorem c9_cache_roundtrip_witness :
    ((maxFrameDiff [[0], [1]] : Int) ≤ (shape1 ([[0, 1, 2]] : List (List Nat)) : Int) - (1 : Nat)) ∧
    ((fun _ => none : Store Nat) (cacheXPath "p" "d" "f.npy") = none) ∧
    (∃ X y st,
      get_paired_data exRNG () (fun _ => none) "p" "d" "pl" "f.npy"
          ([[0, 1, 2]] : List (List Nat)) [[0], [1]] 1 1 1 true =
        Except.ok (PyObj.arrX X, PyObj.arrY y, st) ∧
      load_object st (cacheXPath "p" "d" "f.npy") = some (PyObj.arrX X) ∧
      load_object st (cacheYPath "p" "d" "f.npy") = some (PyObj.arrY y) ∧
      get_paired_data exRNG () st "p" "d" "pl" "f.npy"
          ([[0, 1, 2]] : List (List Nat)) [[0], [1]] 1 1 1 false =
        Except.ok (PyObj.arrX X, PyObj.arrY y, st)) :=
  ⟨by decide, rfl,
    c9_cache_roundtrip exRNG () (fun _ => none) "p" "d" "pl" "f.npy"
      [[0, 1, 2]] [[0], [1]] 1 1 1 true (by decide) rfl⟩

theorem stack_shape (row : List (List (List β))) (stack H W : Nat) (t : Int)
    (hstack : 1 ≤ stack) (hlo : (stack : Int) - 1 ≤ t) (hhi : t < row.length)
    (hframes : ∀ f ∈ row, f.length = H ∧ ∀ r ∈ f, r.length = W) :
    (stackEndingAt row stack t).length = stack ∧
      ∀ fo ∈ stackEndingAt row stack t,
        ∃ f, fo = some f ∧ f.length = H ∧ ∀ r ∈ f, r.length = W := by
  refine ⟨stackEndingAt_length row stack t, ?_⟩
  intro fo hfo
  obtain ⟨a, hae, hamem⟩ := stackEndingAt_frames row stack t hstack hlo hhi fo hfo
  exact ⟨a, hae, (hframes a hamem).1, (hframes a hamem).2⟩

/-- C1 counterexample: a fresh generation run on one video of three frames
with two time buckets (`max_frame_diff = 1`), one pass and one pair per
example returns a pair array of leading dimension 2, not
`num_videos × num_passes × pairs_per_example = 1`: the inner loop over
`range(max_frame_diff+1)` multiplies the claimed dimension by the number of
differences. -/
theorem c1_shape_counterexample :
    ∃ X y st,
      get_paired_data exRNG () (fun _ => none) "p" "d" "pl" "f.npy"
          ([[0, 1, 2]] : List (List Nat)) [[0], [1]] 1 1 1 false =
        Except.ok (PyObj.arrX X, PyObj.arrY y, st) ∧
      X.length = 2 ∧
      ([[0, 1, 2]] : List (List Nat)).length * 1 * 1 = 1 ∧
      X.length ≠ ([[0, 1, 2]] : List (List Nat)).length * 1 * 1 := by
  refine ⟨_, _, _, rfl, by decide, by decide, by decide⟩

/-- C1 (amended): a fresh generation run of `get_paired_data` (no cached pair
file) returns `X` of shape
`(num_videos × num_passes × (max_frame_diff+1) × pairs_per_example, 2,
stack_len, H, W)` and `y` of the same leading dimension, for uniformly shaped
input videos of frames of height `H` and width `W`. -/
theorem c1_generated_shape (rng : RNG S) (s0 : S) (store : Store (List (List β)))
    (pd dd pl fn : String) (data : List (List (List (List β))))
    (tb : List (List Nat)) (P k stack H W : Nat)
    (hstack : 1 ≤ stack)
    (hrows : ∀ row ∈ data, row.length = shape1 data)
    (hframes : ∀ row ∈ data, ∀ f ∈ row, f.length = H ∧ ∀ r ∈ f, r.length = W)
    (ha : (maxFrameDiff tb : Int) ≤ (shape1 data : Int) - (stack : Int))
    (hmiss : store (cacheXPath pd dd fn) = none) :
    ∃ X y st,
      get_paired_data rng s0 store pd dd pl fn data tb P k stack false =
        Except.ok (PyObj.arrX X, PyObj.arrY y, st) ∧
      X.length = data.length * P * (maxFrameDiff tb + 1) * k ∧
      y.length = X.length ∧
      ∀ o ∈ X, ∃ smp, o = some smp ∧ smp.length = 2 ∧
        ∀ stk ∈ smp, stk.length = stack ∧
          ∀ fo ∈ stk, ∃ f, fo = some f ∧ f.length = H ∧ ∀ r ∈ f, r.length = W := by
  refine ⟨(genTriple rng s0 data tb P k stack).1,
    (genTriple rng s0 data tb P k stack).2.1,
    save_object
      (save_object store (PyObj.arrX (genTriple rng s0 data tb P k stack).1)
        (cacheXPath pd dd fn))
      (PyObj.arrY (genTriple rng s0 data tb P k stack).2.1)
      (cacheYPath pd dd fn),
    ?_, ?_, ?_, ?_⟩
  · simp only [get_paired_data, genTriple]
    rw [if_pos ha]
    simp only [load_object, hmiss]
  · simp only [genTriple]
    rw [(runPasses_lengths rng data
      (get_frame_differences_dict (shape1 data) (maxFrameDiff tb) stack)
      k stack (maxFrameDiff tb) (get_time_buckets_dict tb) P s0).1]
    ring
  · simp only [genTriple]
    rw [(runPasses_lengths rng data
      (get_frame_differences_dict (shape1 data) (maxFrameDiff tb) stack)
      k stack (maxFrameDiff tb) (get_time_buckets_dict tb) P s0).2,
      (runPasses_lengths rng data
      (get_frame_differences_dict (shape1 data) (maxFrameDiff tb) stack)
      k stack (maxFrameDiff tb) (get_time_buckets_dict tb) P s0).1]
  · intro o ho
    simp only [genTriple] at ho
    obtain ⟨d, hd, s', hs'⟩ := runPasses_mem rng data
      (get_frame_differences_dict (shape1 data) (maxFrameDiff tb) stack)
      k stack (maxFrameDiff tb) (get_time_buckets_dict tb) P s0 o ho
    obtain ⟨row, hrow, idx, hidx, hoeq⟩ := get_samples_mem rng s' data d
      (get_frame_differences_dict (shape1 data) (maxFrameDiff tb) stack)
      k stack (get_time_buckets_dict tb) o hs'
    have hpos : 0 < (get_frame_differences_dict (shape1 data) (maxFrameDiff tb)
        stack d).length :=
      candidates_nonempty (shape1 data) (maxFrameDiff tb) stack d hd (by omega)
    have hlt : idx < (get_frame_differences_dict (shape1 data) (maxFrameDiff tb)
        stack d).length :=
      rng.choice_lt _ _ _ hpos idx hidx
    have hget : (get_frame_differences_dict (shape1 data) (maxFrameDiff tb)
        stack d)[idx]? =
        some ((get_frame_differences_dict (shape1 data) (maxFrameDiff tb)
          stack d)[idx]) :=
      List.getElem?_eq_getElem hlt
    set pr := (get_frame_differences_dict (shape1 data) (maxFrameDiff tb)
      stack d)[idx] with hpr
    have hprmem : pr ∈ get_frame_differences_dict (shape1 data) (maxFrameDiff tb)
        stack d := List.getElem_mem hlt
    have hprloop : pr ∈ framePairsLoop (shape1 data) ((stack : Int) - 1)
        ((stack : Int) - 1 + d) := by
      unfold get_frame_differences_dict at hprmem
      rwa [if_pos hd] at hprmem
    have hbounds := framePairsLoop_mem _ _ _ _ hprloop
    have hT : (row.length : Int) = (shape1 data : Int) := by
      exact_mod_cast hrows row hrow
    refine ⟨mkSample stack row pr, by rw [hoeq, hget]; rfl, rfl, ?_⟩
    intro stk hstk
    have hshape1 := stack_shape row stack H W pr.1 hstack (by omega) (by omega)
      (hframes row hrow)
    have hshape2 := stack_shape row stack H W pr.2 hstack (by omega) (by omega)
      (hframes row hrow)
    simp only [mkSample, List.mem_cons, List.not_mem_nil, or_false] at hstk
    rcases hstk with hstk | hstk <;> subst hstk
    · exact hshape1
    · exact hshape2

theorem c1_generated_shape_witness :
    (1 : Nat) ≤ 1 ∧
    (∀ row ∈ ([[[[0]], [[1]], [[2]]]] : List (List (List (List Nat)))),
      row.length = shape1 ([[[[0]], [[1]], [[2]]]] : List (List (List (List Nat))))) ∧
    (∀ row ∈ ([[[[0]], [[1]], [[2]]]] : List (List (List (List Nat)))),
      ∀ f ∈ row, f.length = 1 ∧ ∀ r ∈ f, r.length = 1) ∧
    ((maxFrameDiff [[0], [1]] : Int) ≤
      (shape1 ([[[[0]], [[1]], [[2]]]] : List (List (List (List Nat)))) : Int) - (1 : Nat)) ∧
    (∃ X y st,
      get_paired_data exRNG () (fun _ => none) "p" "d" "pl" "f.npy"
          ([[[[0]], [[1]], [[2]]]] : List (List (List (List Nat)))) [[0], [1]] 1 1 1 false =
        Except.ok (PyObj.arrX X, PyObj.arrY y, st) ∧
      X.length = ([[[[0]], [[1]], [[2]]]] : List (List (List (List Nat)))).length * 1 *
        (maxFrameDiff [[0], [1]] + 1) * 1 ∧
      y.length = X.length ∧
      ∀ o ∈ X, ∃ smp, o = some smp ∧ smp.length = 2 ∧
        ∀ stk ∈ smp, stk.length = 1 ∧
          ∀ fo ∈ stk, ∃ f, fo = some f ∧ f.length = 1 ∧ ∀ r ∈ f, r.length = 1) :=
  ⟨by decide, by decide, by decide, by decide,
    c1_generated_shape exRNG () (fun _ => none) "p" "d" "pl" "f.npy"
      [[[[0]], [[1]], [[2]]]] [[0], [1]] 1 1 1 1 1
      (by decide) (by decide) (by decide) (by decide) rfl⟩

end Capstone
